import Mathlib

/-!
Shallow embedding of the GroupTherapy server's authentication, rate-limiting
and storage layer (server/auth.ts, server/storage.ts, server/db-storage.ts).

Time is modelled as milliseconds since the epoch (`Int`); `Date.now()` and
`new Date()` become an explicit `now` parameter.  The external bcrypt
comparison is modelled as an explicit `verify : String → String → Bool`
argument.  Database tables and JavaScript arrays become Lean lists;
JavaScript `Map`s become association lists with `Map.set` overwrite
semantics.  Fallible operations return `Except`/`Option`.
-/

namespace GroupTherapy

/-- Row of the admin_users table (shared/schema.ts, §3 of the design notes). -/
structure AdminUser where
  id : Nat
  username : String
  passwordHash : String
  role : String
  isActive : Bool
  lastLoginAt : Option Int
  createdAt : Int
  updatedAt : Int
deriving DecidableEq, Repr

/-- Row of the login_attempts table: one append-only row per login call. -/
structure LoginAttempt where
  id : Nat
  username : String
  ipAddress : Option String
  successful : Bool
  attemptedAt : Int
deriving DecidableEq, Repr

/-- Row of the sessions table: opaque id, username, expiry timestamp. -/
structure Session where
  id : String
  username : String
  expiresAt : Int
deriving DecidableEq, Repr

/-- State of the relational store as seen by the authentication layer. -/
structure DBState where
  adminUsers : List AdminUser
  loginAttempts : List LoginAttempt
  sessions : List Session
deriving DecidableEq, Repr

/-- db-storage.ts `getAdminUserByUsername`: `select ... where eq(username)`
then `result[0]`. -/
def DatabaseStorage.getAdminUserByUsername (s : DBState) (username : String) :
    Option AdminUser :=
  (s.adminUsers.filter (fun u => u.username == username)).head?

/-- db-storage.ts `recordLoginAttempt`: insert with a generated serial id and
`attemptedAt` defaulted to the current time, returning the stored row. -/
def DatabaseStorage.recordLoginAttempt (s : DBState) (username : String)
    (ipAddress : Option String) (successful : Bool) (now : Int) :
    LoginAttempt × DBState :=
  let attempt : LoginAttempt :=
    { id := s.loginAttempts.length + 1, username := username,
      ipAddress := ipAddress, successful := successful, attemptedAt := now }
  (attempt, { s with loginAttempts := s.loginAttempts ++ [attempt] })

/-- db-storage.ts `getRecentLoginAttempts`: the source computes
`cutoffTime = new Date(Date.now() - minutes * 60 * 1000)` but the query's
`where` clause filters only on the username, so `cutoffTime` (and hence the
`minutes` argument) never restricts the result. -/
def DatabaseStorage.getRecentLoginAttempts (s : DBState) (username : String)
    (minutes : Int) : List LoginAttempt :=
  s.loginAttempts.filter (fun a => a.username == username)

/-- storage.ts `MemStorage.getRecentLoginAttempts`: keeps only attempts for
the username whose `attemptedAt` is at or after `now - minutes * 60 * 1000`. -/
def MemStorage.getRecentLoginAttempts (attempts : List LoginAttempt)
    (username : String) (minutes : Int) (now : Int) : List LoginAttempt :=
  let cutoffTime := now - minutes * 60 * 1000
  attempts.filter (fun a => a.username == username && cutoffTime ≤ a.attemptedAt)

/-- db-storage.ts `updateAdminLastLogin`: sets `lastLoginAt` and `updatedAt`
to the current time on every row matching the username. -/
def DatabaseStorage.updateAdminLastLogin (s : DBState) (username : String)
    (now : Int) : DBState :=
  { s with adminUsers := s.adminUsers.map (fun u =>
      if u.username == username then
        { u with lastLoginAt := some now, updatedAt := now }
      else u) }

/-- auth.ts `MAX_LOGIN_ATTEMPTS`. -/
def MAX_LOGIN_ATTEMPTS : Nat := 5

/-- auth.ts `LOCKOUT_DURATION_MINUTES`. -/
def LOCKOUT_DURATION_MINUTES : Nat := 15

/-- auth.ts `ATTEMPT_WINDOW_MINUTES`. -/
def ATTEMPT_WINDOW_MINUTES : Nat := 15

/-- The lockout message template of auth.ts `validateCredentials`. -/
def lockoutMessage : String :=
  "Too many failed login attempts. Please try again in " ++
    toString LOCKOUT_DURATION_MINUTES ++ " minutes."

/-- Return shape of auth.ts `validateCredentials`. -/
structure AuthResult where
  valid : Bool
  message : Option String
deriving DecidableEq, Repr

/-- auth.ts `isRateLimited`: filters the stored recent attempts (the exported
`storage` is a `DatabaseStorage`) down to the failed ones and compares the
count against `MAX_LOGIN_ATTEMPTS`. -/
def isRateLimited (s : DBState) (username : String) : Bool :=
  let recentAttempts :=
    DatabaseStorage.getRecentLoginAttempts s username (ATTEMPT_WINDOW_MINUTES : Int)
  let failedAttempts := recentAttempts.filter (fun a => !a.successful)
  decide (MAX_LOGIN_ATTEMPTS ≤ failedAttempts.length)

/-- auth.ts `validateCredentials`: rate-limit check, admin-user lookup,
active check, password verification; every path records one login attempt. -/
def validateCredentials (verify : String → String → Bool)
    (username password : String) (ipAddress : Option String)
    (now : Int) (s : DBState) : AuthResult × DBState :=
  if isRateLimited s username then
    ({ valid := false, message := some lockoutMessage },
     (DatabaseStorage.recordLoginAttempt s username ipAddress false now).2)
  else
    match DatabaseStorage.getAdminUserByUsername s username with
    | none =>
        ({ valid := false, message := some "Invalid credentials" },
         (DatabaseStorage.recordLoginAttempt s username ipAddress false now).2)
    | some adminUser =>
        if !adminUser.isActive then
          ({ valid := false, message := some "Account is inactive" },
           (DatabaseStorage.recordLoginAttempt s username ipAddress false now).2)
        else
          let isValid := verify password adminUser.passwordHash
          let s1 := (DatabaseStorage.recordLoginAttempt s username ipAddress isValid now).2
          if isValid then
            ({ valid := true, message := none },
             DatabaseStorage.updateAdminLastLogin s1 username now)
          else
            ({ valid := false, message := some "Invalid credentials" }, s1)

/-- db-storage.ts `createSession`: inserts the session row. -/
def DatabaseStorage.createSession (s : DBState) (sess : Session) : DBState :=
  { s with sessions := s.sessions ++ [sess] }

/-- db-storage.ts `getSession`: `select ... where eq(id)` then `result[0]`. -/
def DatabaseStorage.getSession (s : DBState) (id : String) : Option Session :=
  (s.sessions.filter (fun x => x.id == id)).head?

/-- db-storage.ts `deleteSession`: `delete ... where eq(id)`. -/
def DatabaseStorage.deleteSession (s : DBState) (id : String) : DBState :=
  { s with sessions := s.sessions.filter (fun x => !(x.id == id)) }

/-- auth.ts `createSession`: the generated session identifier is passed in
explicitly (the source derives it from `Math.random` and `Date.now`);
`expiresAt = now + 24h`; the session is persisted and the id returned. -/
def createSession (sessionId : String) (username : String) (now : Int)
    (s : DBState) : String × DBState :=
  let expiresAt := now + 24 * 60 * 60 * 1000
  (sessionId, DatabaseStorage.createSession s
    { id := sessionId, username := username, expiresAt := expiresAt })

/-- auth.ts `validateSession`: absent session gives `null`; a session with
`new Date() > expiresAt` is deleted and gives `null`; otherwise the username
is returned. -/
def validateSession (sessionId : String) (now : Int) (s : DBState) :
    Option String × DBState :=
  match DatabaseStorage.getSession s sessionId with
  | none => (none, s)
  | some session =>
      if session.expiresAt < now then
        (none, DatabaseStorage.deleteSession s sessionId)
      else
        (some session.username, s)

/-- auth.ts `deleteSession`: delegates to the storage deletion. -/
def deleteSession (sessionId : String) (s : DBState) : DBState :=
  DatabaseStorage.deleteSession s sessionId

/-! ### Content entities and the two storage variants -/

/-- Release record, with the fields visible in storage.ts (seed data and
create/update paths). -/
structure Release where
  id : String
  title : String
  slug : String
  artistName : String
  coverUrl : String
  type : String
  genres : List String
  published : Bool
  featured : Bool
  releaseDate : Int
  createdAt : Int
deriving DecidableEq, Repr

/-- `Partial<Release>` as used by `updateRelease`: every field optional
(including `id` and `createdAt`, which a JavaScript spread would also
overwrite). -/
structure ReleaseUpdate where
  id : Option String
  title : Option String
  slug : Option String
  artistName : Option String
  coverUrl : Option String
  type : Option String
  genres : Option (List String)
  published : Option Bool
  featured : Option Bool
  releaseDate : Option Int
  createdAt : Option Int
deriving DecidableEq, Repr

/-- The `{ ...existing, ...update }` spread / SQL `set(update)` merge: a field
present in the update replaces the stored one. -/
def Release.merge (r : Release) (u : ReleaseUpdate) : Release :=
  { id := u.id.getD r.id
    title := u.title.getD r.title
    slug := u.slug.getD r.slug
    artistName := u.artistName.getD r.artistName
    coverUrl := u.coverUrl.getD r.coverUrl
    type := u.type.getD r.type
    genres := u.genres.getD r.genres
    published := u.published.getD r.published
    featured := u.featured.getD r.featured
    releaseDate := u.releaseDate.getD r.releaseDate
    createdAt := u.createdAt.getD r.createdAt }

/-- JavaScript `Map.get`. -/
def jsMapGet {α : Type} (m : List (String × α)) (k : String) : Option α :=
  ((m.filter (fun kv => kv.1 == k)).head?).map Prod.snd

/-- JavaScript `Map.set`: overwrite in place when the key is present,
append otherwise (insertion order is preserved). -/
def jsMapSet {α : Type} (m : List (String × α)) (k : String) (v : α) :
    List (String × α) :=
  if m.any (fun kv => kv.1 == k) then
    m.map (fun kv => if kv.1 == k then (k, v) else kv)
  else
    m ++ [(k, v)]

/-- JavaScript `Map.values()` in insertion order. -/
def jsMapValues {α : Type} (m : List (String × α)) : List α :=
  m.map Prod.snd

/-- storage.ts `MemStorage.updateRelease`: throws "Release not found" when the
id is absent, otherwise merges and stores the update and returns the merged
record. -/
def MemStorage.updateRelease (releases : List (String × Release)) (id : String)
    (update : ReleaseUpdate) : Except String (Release × List (String × Release)) :=
  match jsMapGet releases id with
  | none => Except.error "Release not found"
  | some existing =>
      let updated := Release.merge existing update
      Except.ok (updated, jsMapSet releases id updated)

/-- db-storage.ts `updateRelease`: `update ... set(update) where eq(id)
returning()` then `result[0]` — when no row matches the id, the returned
array is empty and `result[0]` is `undefined`, with no error raised. -/
def DatabaseStorage.updateRelease (releases : List Release) (id : String)
    (update : ReleaseUpdate) : Option Release × List Release :=
  let result := (releases.filter (fun r => r.id == id)).map
    (fun r => Release.merge r update)
  (result.head?,
   releases.map (fun r => if r.id == id then Release.merge r update else r))

/-- Artist record (fields of storage.ts `createArtist` / seed data). -/
structure Artist where
  id : String
  name : String
  slug : String
  bio : Option String
  imageUrl : Option String
  spotifyArtistId : Option String
  socialLinks : Option String
  featured : Option Bool
  createdAt : Int
deriving DecidableEq, Repr

/-- Event record (fields visible in the storage.ts seed data). -/
structure Event where
  id : String
  title : String
  slug : String
  venue : String
  city : String
  country : String
  date : Int
  imageUrl : String
  ticketPrice : String
  published : Bool
  featured : Bool
  createdAt : Int
deriving DecidableEq, Repr

/-- Post record (fields visible in the storage.ts seed data). -/
structure Post where
  id : String
  title : String
  slug : String
  excerpt : String
  coverUrl : String
  category : String
  published : Bool
  featured : Bool
  publishedAt : Int
  authorName : String
  createdAt : Int
deriving DecidableEq, Repr

/-- RadioShow record (fields of storage.ts `createRadioShow`). -/
structure RadioShow where
  id : String
  title : String
  slug : String
  hostName : String
  description : Option String
  hostBio : Option String
  hostImageUrl : Option String
  coverUrl : Option String
  streamUrl : Option String
  recordedUrl : Option String
  dayOfWeek : Option Int
  startTime : Option String
  endTime : Option String
  timezone : Option String
  isLive : Option Bool
  published : Option Bool
  createdAt : Int
deriving DecidableEq, Repr

/-- Contact record (fields of storage.ts `createContact`). -/
structure Contact where
  id : String
  name : String
  email : String
  message : String
  subject : Option String
  category : Option String
  attachmentUrl : Option String
  status : String
  createdAt : Int
deriving DecidableEq, Repr

/-- Playlist record (fields of storage.ts `createPlaylist`). -/
structure Playlist where
  id : String
  title : String
  slug : String
  featured : Option Bool
  coverUrl : Option String
  spotifyUrl : Option String
  published : Option Bool
  description : Option String
  spotifyPlaylistId : Option String
  trackCount : Option Int
  createdAt : Int
deriving DecidableEq, Repr

/-- Video record (fields of storage.ts `createVideo`). -/
structure Video where
  id : String
  title : String
  slug : String
  featured : Option Bool
  artistId : Option String
  artistName : Option String
  published : Option Bool
  description : Option String
  thumbnailUrl : Option String
  videoUrl : Option String
  youtubeId : Option String
  duration : Option Int
  category : Option String
  vimeoId : Option String
  createdAt : Int
deriving DecidableEq, Repr

/-- The record maps of storage.ts `MemStorage` (the `users` map is not
touched by any claim and is omitted). -/
structure MemState where
  adminUsers : List (String × AdminUser)
  loginAttempts : List LoginAttempt
  releases : List (String × Release)
  events : List (String × Event)
  posts : List (String × Post)
  contacts : List (String × Contact)
  artists : List (String × Artist)
  radioShows : List (String × RadioShow)
  playlists : List (String × Playlist)
  videos : List (String × Video)
deriving DecidableEq, Repr

/-- The twelve ids generated by `randomUUID()` inside `MemStorage.seedData`,
passed in explicitly. -/
structure SeedIds where
  artist1 : String
  artist2 : String
  artist3 : String
  release1 : String
  release2 : String
  release3 : String
  event1 : String
  event2 : String
  post1 : String
  post2 : String
  show1 : String
  show2 : String
deriving DecidableEq, Repr

/-- storage.ts `MemStorage.seedData`: inserts three artists, three releases,
two events, two posts and two radio shows into the (fresh) maps.  `new Date()`
becomes `now`; the literal dates are their epoch-millisecond values. -/
def MemStorage.seedData (ids : SeedIds) (now : Int) (s : MemState) : MemState :=
  let artists : List Artist :=
    [ { id := ids.artist1, name := "Luna Wave", slug := "luna-wave",
        bio := some "Electronic music producer from Berlin",
        imageUrl := some "https://images.unsplash.com/photo-1493225457124-a3eb161ffa5f?w=400&h=400&fit=crop",
        spotifyArtistId := none, socialLinks := none,
        featured := some true, createdAt := now },
      { id := ids.artist2, name := "Neon Pulse", slug := "neon-pulse",
        bio := some "Techno artist pushing boundaries",
        imageUrl := some "https://images.unsplash.com/photo-1514320291840-2e0a9bf2a9ae?w=400&h=400&fit=crop",
        spotifyArtistId := none, socialLinks := none,
        featured := some true, createdAt := now },
      { id := ids.artist3, name := "Aqua Dreams", slug := "aqua-dreams",
        bio := some "Deep house specialist",
        imageUrl := some "https://images.unsplash.com/photo-1470225620780-dba8ba36b745?w=400&h=400&fit=crop",
        spotifyArtistId := none, socialLinks := none,
        featured := some false, createdAt := now } ]
  let releases : List Release :=
    [ { id := ids.release1, title := "Midnight Sessions",
        slug := "midnight-sessions", artistName := "Luna Wave",
        coverUrl := "https://images.unsplash.com/photo-1493225457124-a3eb161ffa5f?w=400&h=400&fit=crop",
        type := "album", genres := ["Electronic", "House"],
        published := true, featured := true,
        releaseDate := 1705276800000, createdAt := now },
      { id := ids.release2, title := "Echoes of Tomorrow",
        slug := "echoes-of-tomorrow", artistName := "Neon Pulse",
        coverUrl := "https://images.unsplash.com/photo-1514320291840-2e0a9bf2a9ae?w=400&h=400&fit=crop",
        type := "single", genres := ["Techno"],
        published := true, featured := false,
        releaseDate := 1706745600000, createdAt := now },
      { id := ids.release3, title := "Deep Waters", slug := "deep-waters",
        artistName := "Aqua Dreams",
        coverUrl := "https://images.unsplash.com/photo-1470225620780-dba8ba36b745?w=400&h=400&fit=crop",
        type := "ep", genres := ["Deep House"],
        published := true, featured := true,
        releaseDate := 1707523200000, createdAt := now } ]
  let events : List Event :=
    [ { id := ids.event1, title := "GroupTherapy Sessions Vol. 1",
        slug := "grouptherapy-sessions-vol-1", venue := "Warehouse 23",
        city := "London", country := "UK",
        date := now + 7 * 24 * 60 * 60 * 1000,
        imageUrl := "https://images.unsplash.com/photo-1540039155733-5bb30b53aa14?w=600&h=400&fit=crop",
        ticketPrice := "25", published := true, featured := true,
        createdAt := now },
      { id := ids.event2, title := "Summer Festival 2024",
        slug := "summer-festival-2024", venue := "Victoria Park",
        city := "Manchester", country := "UK",
        date := now + 14 * 24 * 60 * 60 * 1000,
        imageUrl := "https://images.unsplash.com/photo-1459749411175-04bf5292ceea?w=600&h=400&fit=crop",
        ticketPrice := "45", published := true, featured := false,
        createdAt := now } ]
  let posts : List Post :=
    [ { id := ids.post1,
        title := "GroupTherapy Announces Summer Festival 2024 Lineup",
        slug := "summer-festival-2024-lineup",
        excerpt := "Get ready for the biggest GroupTherapy event yet!",
        coverUrl := "https://images.unsplash.com/photo-1459749411175-04bf5292ceea?w=800&h=400&fit=crop",
        category := "events", published := true, featured := true,
        publishedAt := 1709251200000, authorName := "GroupTherapy Team",
        createdAt := now },
      { id := ids.post2,
        title := "Luna Wave Drops New Album 'Midnight Sessions'",
        slug := "luna-wave-midnight-sessions",
        excerpt := "After two years in the making, Luna Wave delivers her most ambitious project to date.",
        coverUrl := "https://images.unsplash.com/photo-1493225457124-a3eb161ffa5f?w=800&h=400&fit=crop",
        category := "releases", published := true, featured := false,
        publishedAt := 1709078400000, authorName := "Sarah Chen",
        createdAt := now } ]
  let shows : List RadioShow :=
    [ { id := ids.show1, title := "Morning Therapy", slug := "morning-therapy",
        hostName := "DJ Luna",
        description := some "Wake up with the smoothest electronic beats",
        hostBio := none, hostImageUrl := none, coverUrl := none,
        streamUrl := none, recordedUrl := none,
        dayOfWeek := some 1, startTime := some "07:00", endTime := some "10:00",
        timezone := some "UTC", isLive := some false, published := some true,
        createdAt := now },
      { id := ids.show2, title := "Peak Time Sessions",
        slug := "peak-time-sessions", hostName := "Neon Pulse",
        description := some "High-energy techno and house",
        hostBio := none, hostImageUrl := none, coverUrl := none,
        streamUrl := none, recordedUrl := none,
        dayOfWeek := some 2, startTime := some "20:00", endTime := some "23:00",
        timezone := some "UTC", isLive := some true, published := some true,
        createdAt := now } ]
  { s with
    artists := artists.foldl (fun m a => jsMapSet m a.id a) s.artists
    releases := releases.foldl (fun m r => jsMapSet m r.id r) s.releases
    events := events.foldl (fun m e => jsMapSet m e.id e) s.events
    posts := posts.foldl (fun m p => jsMapSet m p.id p) s.posts
    radioShows := shows.foldl (fun m x => jsMapSet m x.id x) s.radioShows }

/-- The empty maps set up at the top of the `MemStorage` constructor. -/
def MemStorage.emptyState : MemState :=
  { adminUsers := [], loginAttempts := [], releases := [], events := []
    posts := [], contacts := [], artists := [], radioShows := []
    playlists := [], videos := [] }

/-- The `MemStorage` constructor: fresh empty maps, then `seedData()`. -/
def MemStorage.construct (ids : SeedIds) (now : Int) : MemState :=
  MemStorage.seedData ids now MemStorage.emptyState

/-- storage.ts `MemStorage.getAllArtists`. -/
def MemStorage.getAllArtists (s : MemState) : List Artist :=
  jsMapValues s.artists

/-- storage.ts `MemStorage.getAllReleases`. -/
def MemStorage.getAllReleases (s : MemState) : List Release :=
  jsMapValues s.releases

/-- storage.ts `MemStorage.getAllEvents`. -/
def MemStorage.getAllEvents (s : MemState) : List Event :=
  jsMapValues s.events

/-- storage.ts `MemStorage.getAllPosts`. -/
def MemStorage.getAllPosts (s : MemState) : List Post :=
  jsMapValues s.posts

/-- storage.ts `MemStorage.getAllRadioShows`. -/
def MemStorage.getAllRadioShows (s : MemState) : List RadioShow :=
  jsMapValues s.radioShows

/-- storage.ts `MemStorage.getAllContacts`. -/
def MemStorage.getAllContacts (s : MemState) : List Contact :=
  jsMapValues s.contacts

/-- storage.ts `MemStorage.getAllPlaylists`. -/
def MemStorage.getAllPlaylists (s : MemState) : List Playlist :=
  jsMapValues s.playlists

/-- storage.ts `MemStorage.getAllVideos`. -/
def MemStorage.getAllVideos (s : MemState) : List Video :=
  jsMapValues s.videos

/-! ### Helper lemmas and concrete states -/

/-- Number of failed attempts that the production storage's
`getRecentLoginAttempts` reports for a username, exactly as `isRateLimited`
computes it. -/
def failedCount (s : DBState) (username : String) : Nat :=
  ((DatabaseStorage.getRecentLoginAttempts s username (ATTEMPT_WINDOW_MINUTES : Int)).filter
    (fun a => !a.successful)).length

theorem isRateLimited_eq_decide (s : DBState) (username : String) :
    isRateLimited s username = decide (MAX_LOGIN_ATTEMPTS ≤ failedCount s username) := rfl

theorem failedCount_record (s : DBState) (username : String)
    (ipAddress : Option String) (now : Int) :
    failedCount (DatabaseStorage.recordLoginAttempt s username ipAddress false now).2 username
      = failedCount s username + 1 := by
  simp [failedCount, DatabaseStorage.recordLoginAttempt,
    DatabaseStorage.getRecentLoginAttempts, List.filter_append]

theorem loginAttempts_length_record (s : DBState) (username : String)
    (ipAddress : Option String) (successful : Bool) (now : Int) :
    ((DatabaseStorage.recordLoginAttempt s username ipAddress successful now).2).loginAttempts.length
      = s.loginAttempts.length + 1 := by
  simp [DatabaseStorage.recordLoginAttempt]

/-- A failed login attempt for "alice" recorded at time 0. -/
def staleFailedAttempt (i : Nat) : LoginAttempt :=
  { id := i, username := "alice", ipAddress := none, successful := false,
    attemptedAt := 0 }

/-- An active admin row for "alice". -/
def aliceAdmin : AdminUser :=
  { id := 1, username := "alice", passwordHash := "correct-hash",
    role := "admin", isActive := true, lastLoginAt := none,
    createdAt := 0, updatedAt := 0 }

/-- An active admin "alice" together with five failed attempts all recorded at
time 0. -/
def staleLockoutState : DBState :=
  { adminUsers := [aliceAdmin],
    loginAttempts := [staleFailedAttempt 1, staleFailedAttempt 2,
      staleFailedAttempt 3, staleFailedAttempt 4, staleFailedAttempt 5],
    sessions := [] }

/-- A store holding a single failed attempt for "alice", recorded at time 0. -/
def staleAttemptState : DBState :=
  { adminUsers := [], loginAttempts := [staleFailedAttempt 1], sessions := [] }

/-! ### C1 -/

/-- C1: the rate-limit decision of `validateCredentials` is NOT computed from
the trailing 15-minute window.  With five failed attempts for "alice" recorded
at time 0 and the call made one hour later (timestamp 3600000), the window
holds 0 failed attempts — the claim then requires the call to proceed — yet
`isRateLimited` returns `true` and `validateCredentials` rejects the call as
locked out even under the correct password (`verify` constantly true), because
`DatabaseStorage.getRecentLoginAttempts` never applies its cutoff. -/
theorem rateLimit_ignores_window :
    ((MemStorage.getRecentLoginAttempts staleLockoutState.loginAttempts
        "alice" 15 3600000).filter (fun a => !a.successful)).length = 0 ∧
    isRateLimited staleLockoutState "alice" = true ∧
    (validateCredentials (fun _ _ => true) "alice" "secret123" none 3600000
        staleLockoutState).1
      = { valid := false, message := some lockoutMessage } := by
  decide

/-! ### C3 -/

/-- C3: the in-memory and durable variants are not behaviorally
interchangeable.  On a store whose only attempt for "alice" is a failure
recorded at time 0, queried one hour later with a 15-minute window,
`MemStorage.getRecentLoginAttempts` returns no rows while
`DatabaseStorage.getRecentLoginAttempts` returns the stale row. -/
theorem getRecentLoginAttempts_variants_disagree :
    MemStorage.getRecentLoginAttempts [staleFailedAttempt 1] "alice" 15 3600000
      = [] ∧
    DatabaseStorage.getRecentLoginAttempts staleAttemptState "alice" 15
      = [staleFailedAttempt 1] := by
  decide

/-! ### C4 -/

/-- A store holding one session for "alice" expiring at timestamp 1000. -/
def boundaryState : DBState :=
  { adminUsers := [], loginAttempts := [],
    sessions := [{ id := "s1", username := "alice", expiresAt := 1000 }] }

/-- C4 counterexample: at the exact boundary instant `now = expiresAt` the
session still authorizes — `validateSession` returns the username even though
`now < expiresAt` fails, because the source tests `new Date() > expiresAt`
strictly. -/
theorem validateSession_boundary_authorizes :
    (validateSession "s1" 1000 boundaryState).1 = some "alice" ∧
    ¬ ((1000 : Int) < 1000) := by
  decide

/-- C4 (amended): `validateSession` returns the username iff the session
exists and `now ≤ expiresAt`; an absent session yields `null`; a session with
`expiresAt < now` is deleted and yields `null`. -/
theorem validateSession_spec (sessionId : String) (now : Int) (s : DBState) :
    (DatabaseStorage.getSession s sessionId = none →
      validateSession sessionId now s = (none, s)) ∧
    (∀ sess : Session, DatabaseStorage.getSession s sessionId = some sess →
      now ≤ sess.expiresAt →
      validateSession sessionId now s = (some sess.username, s)) ∧
    (∀ sess : Session, DatabaseStorage.getSession s sessionId = some sess →
      sess.expiresAt < now →
      validateSession sessionId now s
        = (none, DatabaseStorage.deleteSession s sessionId)) := by
  refine ⟨fun h => ?_, fun sess h hle => ?_, fun sess h hlt => ?_⟩
  · simp [validateSession, h]
  · simp [validateSession, h]
    omega
  · simp [validateSession, h, hlt]

/-- C4 witness: on `boundaryState` at time 999 (before expiry) the session
resolves to "alice". -/
theorem validateSession_spec_witness :
    DatabaseStorage.getSession boundaryState "s1"
        = some { id := "s1", username := "alice", expiresAt := 1000 } ∧
    (999 : Int) ≤ 1000 ∧
    validateSession "s1" 999 boundaryState = (some "alice", boundaryState) :=
  ⟨by decide, by decide,
    (validateSession_spec "s1" 999 boundaryState).2.1
      { id := "s1", username := "alice", expiresAt := 1000 }
      (by decide) (by decide)⟩

/-! ### C5 -/

/-- The empty `Partial<Release>` update object. -/
def emptyReleaseUpdate : ReleaseUpdate :=
  { id := none, title := none, slug := none, artistName := none,
    coverUrl := none, type := none, genres := none, published := none,
    featured := none, releaseDate := none, createdAt := none }

/-- C5: on an unknown id the in-memory variant fails with "Release not found"
as the claim requires, but the durable variant resolves successfully with an
absent (`undefined`) record instead of failing. -/
theorem updateRelease_unknown_id_divergence :
    MemStorage.updateRelease ([] : List (String × Release)) "missing"
        emptyReleaseUpdate = Except.error "Release not found" ∧
    DatabaseStorage.updateRelease ([] : List Release) "missing"
        emptyReleaseUpdate = (none, ([] : List Release)) :=
  ⟨rfl, rfl⟩

/-! ### C9 -/

/-- C9: after `deleteSession`, `validateSession` yields `null`, and deleting
again is a no-op (idempotence); nothing fails on an id that never existed. -/
theorem deleteSession_idempotent (sessionId : String) (now : Int) (s : DBState) :
    (validateSession sessionId now (deleteSession sessionId s)).1 = none ∧
    deleteSession sessionId (deleteSession sessionId s)
      = deleteSession sessionId s := by
  constructor
  · have hget : DatabaseStorage.getSession
        (DatabaseStorage.deleteSession s sessionId) sessionId = none := by
      simp [DatabaseStorage.getSession, DatabaseStorage.deleteSession,
        List.filter_filter]
    simp [validateSession, deleteSession, hget]
  · simp [deleteSession, DatabaseStorage.deleteSession, List.filter_filter]

/-! ### C2 -/

/-- C2: every call to `validateCredentials` appends exactly one LoginAttempt
row for the username, on every path (pre-lookup lockout, unknown username,
inactive account, password verification), and the row's `successful` flag is
`false` on the first three paths and equals the verification outcome on the
last. -/
theorem validateCredentials_records_one_attempt
    (verify : String → String → Bool) (username password : String)
    (ipAddress : Option String) (now : Int) (s : DBState) :
    ∃ a : LoginAttempt,
      ((validateCredentials verify username password ipAddress now s).2).loginAttempts
        = s.loginAttempts ++ [a] ∧
      a.username = username ∧ a.ipAddress = ipAddress ∧ a.attemptedAt = now ∧
      a.successful =
        (if isRateLimited s username then false
         else
           match DatabaseStorage.getAdminUserByUsername s username with
           | none => false
           | some adminUser =>
               if !adminUser.isActive then false
               else verify password adminUser.passwordHash) := by
  cases hrl : isRateLimited s username with
  | true =>
      refine ⟨{ id := s.loginAttempts.length + 1, username := username, ipAddress := ipAddress, successful := false, attemptedAt := now }, ?_, rfl, rfl, rfl, ?_⟩
      · simp [validateCredentials, hrl, DatabaseStorage.recordLoginAttempt]
      · simp [hrl]
  | false =>
      cases hadm : DatabaseStorage.getAdminUserByUsername s username with
      | none =>
          refine ⟨{ id := s.loginAttempts.length + 1, username := username, ipAddress := ipAddress, successful := false, attemptedAt := now }, ?_, rfl, rfl, rfl, ?_⟩
          · simp [validateCredentials, hrl, hadm, DatabaseStorage.recordLoginAttempt]
          · simp [hrl, hadm]
      | some adminUser =>
          cases hact : adminUser.isActive with
          | false =>
              refine ⟨{ id := s.loginAttempts.length + 1, username := username, ipAddress := ipAddress, successful := false, attemptedAt := now }, ?_, rfl, rfl, rfl, ?_⟩
              · simp [validateCredentials, hrl, hadm, hact, DatabaseStorage.recordLoginAttempt]
              · simp [hrl, hadm, hact]
          | true =>
              cases hvf : verify password adminUser.passwordHash with
              | false =>
                  refine ⟨{ id := s.loginAttempts.length + 1, username := username, ipAddress := ipAddress, successful := false, attemptedAt := now }, ?_, rfl, rfl, rfl, ?_⟩
                  · simp [validateCredentials, hrl, hadm, hact, hvf, DatabaseStorage.recordLoginAttempt]
                  · simp [hrl, hadm, hact, hvf]
              | true =>
                  refine ⟨{ id := s.loginAttempts.length + 1, username := username, ipAddress := ipAddress, successful := true, attemptedAt := now }, ?_, rfl, rfl, rfl, ?_⟩
                  · simp [validateCredentials, hrl, hadm, hact, hvf, DatabaseStorage.recordLoginAttempt, DatabaseStorage.updateAdminLastLogin]
                  · simp [hrl, hadm, hact, hvf]

/-! ### C7 -/

/-- C7: an unknown username and an existing active admin given a wrong
password produce identical `{valid, message}` results — both yield
`valid = false` with message "Invalid credentials" — for every
non-rate-limited pair of inputs. -/
theorem invalid_credentials_indistinguishable
    (verify : String → String → Bool) (u1 u2 p1 p2 : String)
    (ip1 ip2 : Option String) (now1 now2 : Int) (s : DBState)
    (admin : AdminUser)
    (h1 : isRateLimited s u1 = false)
    (h2 : isRateLimited s u2 = false)
    (hu1 : DatabaseStorage.getAdminUserByUsername s u1 = none)
    (hu2 : DatabaseStorage.getAdminUserByUsername s u2 = some admin)
    (hact : admin.isActive = true)
    (hpw : verify p2 admin.passwordHash = false) :
    (validateCredentials verify u1 p1 ip1 now1 s).1
      = { valid := false, message := some "Invalid credentials" } ∧
    (validateCredentials verify u2 p2 ip2 now2 s).1
      = { valid := false, message := some "Invalid credentials" } := by
  constructor
  · simp [validateCredentials, h1, hu1]
  · simp [validateCredentials, h2, hu2, hact, hpw]

/-- An active admin row for "bob". -/
def bobAdmin : AdminUser :=
  { id := 1, username := "bob", passwordHash := "hash-of-secret",
    role := "admin", isActive := true, lastLoginAt := none,
    createdAt := 0, updatedAt := 0 }

/-- A store holding only the active admin "bob" and no login attempts. -/
def bobState : DBState :=
  { adminUsers := [bobAdmin], loginAttempts := [], sessions := [] }

/-- C7 witness: a nonexistent username and "bob" with a wrong password get
the same "Invalid credentials" result. -/
theorem invalid_credentials_indistinguishable_witness :
    isRateLimited bobState "nonexistent" = false ∧
    isRateLimited bobState "bob" = false ∧
    DatabaseStorage.getAdminUserByUsername bobState "nonexistent" = none ∧
    DatabaseStorage.getAdminUserByUsername bobState "bob" = some bobAdmin ∧
    bobAdmin.isActive = true ∧
    ((validateCredentials (fun _ _ => false) "nonexistent" "x" none 0 bobState).1
        = { valid := false, message := some "Invalid credentials" } ∧
     (validateCredentials (fun _ _ => false) "bob" "wrongpassword" none 0 bobState).1
        = { valid := false, message := some "Invalid credentials" }) :=
  ⟨by decide, by decide, by decide, by decide, by decide,
    invalid_credentials_indistinguishable (fun _ _ => false) "nonexistent" "bob"
      "x" "wrongpassword" none none 0 0 bobState bobAdmin
      (by decide) (by decide) (by decide) (by decide) (by decide) rfl⟩

/-! ### C8 -/

/-- C8: for any username and any generated id not already in the session
store, `createSession` succeeds, returns the id, persists a session with
`expiresAt = now + 24h`, and an immediate `validateSession` resolves it back
to the username. -/
theorem createSession_then_validateSession
    (sessionId username : String) (now : Int) (s : DBState)
    (hfresh : ∀ sess ∈ s.sessions, sess.id ≠ sessionId) :
    (createSession sessionId username now s).1 = sessionId ∧
    ({ id := sessionId, username := username, expiresAt := now + 24 * 60 * 60 * 1000 } : Session) ∈ ((createSession sessionId username now s).2).sessions ∧
    (validateSession sessionId now ((createSession sessionId username now s).2)).1
      = some username := by
  have hget : DatabaseStorage.getSession ((createSession sessionId username now s).2) sessionId = some { id := sessionId, username := username, expiresAt := now + 24 * 60 * 60 * 1000 } := by
    simp [createSession, DatabaseStorage.createSession, DatabaseStorage.getSession,
      List.filter_append]
    exact Or.inr (fun x hx => hfresh x hx)
  refine ⟨rfl, ?_, ?_⟩
  · simp [createSession, DatabaseStorage.createSession]
  · simp [validateSession, hget]

/-- The store with no rows at all. -/
def emptyDB : DBState :=
  { adminUsers := [], loginAttempts := [], sessions := [] }

/-- C8 witness: creating a session "token1" for "admin" at time 0 in the empty
store and validating it immediately yields "admin". -/
theorem createSession_then_validateSession_witness :
    (∀ sess ∈ emptyDB.sessions, sess.id ≠ "token1") ∧
    ((createSession "token1" "admin" 0 emptyDB).1 = "token1" ∧
     ({ id := "token1", username := "admin", expiresAt := 0 + 24 * 60 * 60 * 1000 } : Session) ∈ ((createSession "token1" "admin" 0 emptyDB).2).sessions ∧
     (validateSession "token1" 0 ((createSession "token1" "admin" 0 emptyDB).2)).1
       = some "admin") :=
  ⟨by intro sess h; exact absurd h (by simp [emptyDB]),
    createSession_then_validateSession "token1" "admin" 0 emptyDB
      (by intro sess h; exact absurd h (by simp [emptyDB]))⟩

/-! ### C6 -/

/-- A sequence of `validateCredentials` calls for one username: each list
entry carries the password, the ip address and the call time, and the results
are collected in order. -/
def runLoginCalls (verify : String → String → Bool) (username : String)
    (calls : List (String × Option String × Int)) (s : DBState) :
    List AuthResult × DBState :=
  match calls with
  | [] => ([], s)
  | c :: rest =>
      let r := validateCredentials verify username c.1 c.2.1 c.2.2 s
      let next := runLoginCalls verify username rest r.2
      (r.1 :: next.1, next.2)

theorem validateCredentials_lockout (verify : String → String → Bool)
    (username password : String) (ipAddress : Option String) (now : Int)
    (s : DBState) (h : MAX_LOGIN_ATTEMPTS ≤ failedCount s username) :
    validateCredentials verify username password ipAddress now s
      = ({ valid := false, message := some lockoutMessage },
         (DatabaseStorage.recordLoginAttempt s username ipAddress false now).2) := by
  have hrl : isRateLimited s username = true := by
    rw [isRateLimited_eq_decide]
    exact decide_eq_true h
  simp [validateCredentials, hrl]

/-- C6: under the `DatabaseStorage`-backed storage, once at least five failed
attempts exist for a username — recorded at any time in the past — every
subsequent `validateCredentials` call, at any later time and with any
password (including the correct one), returns the lockout result, and each
call appends one more attempt row; the username can never log in again
through this function. -/
theorem lockedOut_forever (verify : String → String → Bool) (username : String)
    (calls : List (String × Option String × Int)) (s : DBState)
    (h : MAX_LOGIN_ATTEMPTS ≤ failedCount s username) :
    (∀ r ∈ (runLoginCalls verify username calls s).1,
        r = { valid := false, message := some lockoutMessage }) ∧
    ((runLoginCalls verify username calls s).2).loginAttempts.length
      = s.loginAttempts.length + calls.length := by
  induction calls generalizing s with
  | nil => simp [runLoginCalls]
  | cons c rest ih =>
      have hstep := validateCredentials_lockout verify username c.1 c.2.1 c.2.2 s h
      have h' : MAX_LOGIN_ATTEMPTS ≤ failedCount
          (validateCredentials verify username c.1 c.2.1 c.2.2 s).2 username := by
        rw [hstep, failedCount_record]
        omega
      have ihs := ih _ h'
      constructor
      · intro r hr
        simp only [runLoginCalls, List.mem_cons] at hr
        rcases hr with hr | hr
        · rw [hr, hstep]
        · exact ihs.1 r hr
      · have hlen : ((validateCredentials verify username c.1 c.2.1 c.2.2 s).2).loginAttempts.length
            = s.loginAttempts.length + 1 := by
          rw [hstep]
          exact loginAttempts_length_record s username c.2.1 false c.2.2
        simp only [runLoginCalls]
        rw [ihs.2, hlen, List.length_cons]
        omega

/-- C6 witness: with five stale failures for "alice", a later call carrying
the correct password is rejected with the lockout message and one more
attempt row is recorded. -/
theorem lockedOut_forever_witness :
    MAX_LOGIN_ATTEMPTS ≤ failedCount staleLockoutState "alice" ∧
    ((∀ r ∈ (runLoginCalls (fun _ _ => true) "alice"
          [("secret123", none, 3600000)] staleLockoutState).1,
        r = { valid := false, message := some lockoutMessage }) ∧
     ((runLoginCalls (fun _ _ => true) "alice"
          [("secret123", none, 3600000)] staleLockoutState).2).loginAttempts.length
       = staleLockoutState.loginAttempts.length + [("secret123", (none : Option String), (3600000 : Int))].length) :=
  ⟨by decide,
    lockedOut_forever (fun _ _ => true) "alice" [("secret123", none, 3600000)]
      staleLockoutState (by decide)⟩

/-! ### C10 -/

/-- C10: immediately after construction (for any pairwise-distinct generated
ids), `MemStorage` is pre-populated with the demo content: 3 artists,
3 releases, 2 events, 2 posts and 2 radio shows, while contacts, playlists
and videos are empty. -/
theorem memStorage_seeded_counts (ids : SeedIds) (now : Int)
    (ha12 : ids.artist1 ≠ ids.artist2) (ha13 : ids.artist1 ≠ ids.artist3)
    (ha23 : ids.artist2 ≠ ids.artist3)
    (hr12 : ids.release1 ≠ ids.release2) (hr13 : ids.release1 ≠ ids.release3)
    (hr23 : ids.release2 ≠ ids.release3)
    (he12 : ids.event1 ≠ ids.event2) (hp12 : ids.post1 ≠ ids.post2)
    (hs12 : ids.show1 ≠ ids.show2) :
    (MemStorage.getAllArtists (MemStorage.construct ids now)).length = 3 ∧
    (MemStorage.getAllReleases (MemStorage.construct ids now)).length = 3 ∧
    (MemStorage.getAllEvents (MemStorage.construct ids now)).length = 2 ∧
    (MemStorage.getAllPosts (MemStorage.construct ids now)).length = 2 ∧
    (MemStorage.getAllRadioShows (MemStorage.construct ids now)).length = 2 ∧
    MemStorage.getAllContacts (MemStorage.construct ids now) = [] ∧
    MemStorage.getAllPlaylists (MemStorage.construct ids now) = [] ∧
    MemStorage.getAllVideos (MemStorage.construct ids now) = [] := by
  have ba12 : (ids.artist1 == ids.artist2) = false := beq_eq_false_iff_ne.mpr ha12
  have ba13 : (ids.artist1 == ids.artist3) = false := beq_eq_false_iff_ne.mpr ha13
  have ba23 : (ids.artist2 == ids.artist3) = false := beq_eq_false_iff_ne.mpr ha23
  have br12 : (ids.release1 == ids.release2) = false := beq_eq_false_iff_ne.mpr hr12
  have br13 : (ids.release1 == ids.release3) = false := beq_eq_false_iff_ne.mpr hr13
  have br23 : (ids.release2 == ids.release3) = false := beq_eq_false_iff_ne.mpr hr23
  have be12 : (ids.event1 == ids.event2) = false := beq_eq_false_iff_ne.mpr he12
  have bp12 : (ids.post1 == ids.post2) = false := beq_eq_false_iff_ne.mpr hp12
  have bs12 : (ids.show1 == ids.show2) = false := beq_eq_false_iff_ne.mpr hs12
  refine ⟨?_, ?_, ?_, ?_, ?_, ?_, ?_, ?_⟩
  · simp [MemStorage.construct, MemStorage.seedData, MemStorage.emptyState,
      MemStorage.getAllArtists, jsMapValues, jsMapSet, ba12, ba13, ba23]
  · simp [MemStorage.construct, MemStorage.seedData, MemStorage.emptyState,
      MemStorage.getAllReleases, jsMapValues, jsMapSet, br12, br13, br23]
  · simp [MemStorage.construct, MemStorage.seedData, MemStorage.emptyState,
      MemStorage.getAllEvents, jsMapValues, jsMapSet, be12]
  · simp [MemStorage.construct, MemStorage.seedData, MemStorage.emptyState,
      MemStorage.getAllPosts, jsMapValues, jsMapSet, bp12]
  · simp [MemStorage.construct, MemStorage.seedData, MemStorage.emptyState,
      MemStorage.getAllRadioShows, jsMapValues, jsMapSet, bs12]
  · rfl
  · rfl
  · rfl

/-- Twelve concrete pairwise-distinct seed ids. -/
def concreteSeedIds : SeedIds :=
  { artist1 := "a1", artist2 := "a2", artist3 := "a3",
    release1 := "r1", release2 := "r2", release3 := "r3",
    event1 := "e1", event2 := "e2", post1 := "p1", post2 := "p2",
    show1 := "w1", show2 := "w2" }

/-- C10 witness: with concrete distinct ids the freshly constructed store
holds exactly the demo content. -/
theorem memStorage_seeded_counts_witness :
    concreteSeedIds.artist1 ≠ concreteSeedIds.artist2 ∧
    ((MemStorage.getAllArtists (MemStorage.construct concreteSeedIds 0)).length = 3 ∧
     (MemStorage.getAllReleases (MemStorage.construct concreteSeedIds 0)).length = 3 ∧
     (MemStorage.getAllEvents (MemStorage.construct concreteSeedIds 0)).length = 2 ∧
     (MemStorage.getAllPosts (MemStorage.construct concreteSeedIds 0)).length = 2 ∧
     (MemStorage.getAllRadioShows (MemStorage.construct concreteSeedIds 0)).length = 2 ∧
     MemStorage.getAllContacts (MemStorage.construct concreteSeedIds 0) = [] ∧
     MemStorage.getAllPlaylists (MemStorage.construct concreteSeedIds 0) = [] ∧
     MemStorage.getAllVideos (MemStorage.construct concreteSeedIds 0) = []) :=
  ⟨by decide,
    memStorage_seeded_counts concreteSeedIds 0 (by decide) (by decide) (by decide)
      (by decide) (by decide) (by decide) (by decide) (by decide) (by decide)⟩

end GroupTherapy
